import Mathlib

/-!
Verification of the stock reconciliation and dashboard logic of the
Yinka-Julius Petroleum and Gas repository.

The repository is a React/Supabase dashboard.  The logic under
verification is:
  * `initializeMonthlyStock`, `updateActualClosingStock` and
    `calculateEstimatedStock` from the StockManagement component;
  * `calculateSalesVolume`, `getProductPrice` and `handleSubmit` from
    FuelRecordForm.tsx;
  * the daily aggregation of `loadSummaryData` and the derived totals of
    DailySummary.tsx.

Numbers are modelled as rationals; JavaScript NaN is kept explicit in
`JsNum` because `parseFloat` on malformed text yields NaN and the code
performs arithmetic on the parse result without validation.  Dates in the
flow of StockManagement are always first-of-month dates formatted
`yyyy-MM-dd`, so a period key is modelled as a (year, 0-based month) pair,
and `Date.setMonth` on such a date can never overflow a day-of-month.
The Supabase store is modelled as a list of rows; lookups by equality
filters become `List.find?` / `List.filter`.
-/

/-- A JavaScript number: either NaN or a finite value (as a rational). -/
inductive JsNum where
  | nan : JsNum
  | num : ℚ → JsNum
deriving DecidableEq

/-- JavaScript subtraction: NaN-propagating. -/
def JsNum.sub : JsNum → JsNum → JsNum
  | JsNum.num a, JsNum.num b => JsNum.num (a - b)
  | _, _ => JsNum.nan

/-- A text form field, modelled by its parse result: `some q` when the text
parses to the finite number `q`, `none` when `parseFloat` would yield NaN
(empty or non-numeric text). -/
abbrev FormInput := Option ℚ

/-- `parseFloat` applied to a form field. -/
def parseFloat : FormInput → JsNum
  | some q => JsNum.num q
  | none => JsNum.nan

/-- `parseFloat(x) || 0`: NaN is falsy and maps to 0; the finite value 0 is
also falsy and maps to 0, the same value. -/
def parseFloatOr0 : FormInput → ℚ
  | some q => q
  | none => 0

/-- A period key: the first calendar day of a month.  `month0` is 0-based
as in JavaScript `Date.getMonth`. -/
structure PeriodKey where
  year : Int
  month0 : Int
deriving DecidableEq

/-- `lastMonth.setMonth(lastMonth.getMonth() - 1)` followed by
`startOfMonth`, applied to a first-of-month date (part_000 lines 59-61).
For `month0 = 0` JavaScript normalizes `setMonth(-1)` to December of the
previous year. -/
def prevPeriodKey (pk : PeriodKey) : PeriodKey :=
  if pk.month0 = 0 then ⟨pk.year - 1, 11⟩ else ⟨pk.year, pk.month0 - 1⟩

/-- `nextMonth.setMonth(nextMonth.getMonth() + 1)` applied to a
first-of-month date (part_000 lines 143-145); `setMonth(12)` normalizes to
January of the next year. -/
def nextPeriodKey (pk : PeriodKey) : PeriodKey :=
  if pk.month0 = 11 then ⟨pk.year + 1, 0⟩ else ⟨pk.year, pk.month0 + 1⟩

/-- Linear month index, for stating calendar adjacency of period keys. -/
def monthIndex (pk : PeriodKey) : Int := 12 * pk.year + pk.month0

/-- A row of the `monthly_stock` table (the MonthlyStock interface of
part_000 lines 16-23).  `actual_closing_stock` and `excess` are nullable;
their values are `JsNum` because the update path writes unvalidated
`parseFloat` results. -/
structure MonthlyStock where
  id : Nat
  station_id : String
  product_type : String
  month_year : PeriodKey
  opening_stock : ℚ
  actual_closing_stock : Option JsNum
  excess : Option JsNum
deriving DecidableEq

/-- The equality filters used for `monthly_stock` queries:
`.eq('station_id', s).eq('product_type', p).eq('month_year', m)`. -/
def sameKey (r : MonthlyStock) (s p : String) (m : PeriodKey) : Bool :=
  r.station_id = s && r.product_type = p && r.month_year = m

/-- Modelled from the spec: the `monthly_stock` table enforces uniqueness
of (station_id, product_type, month_year) — the database schema is not in
src, only the spec states the constraint (section 3 invariants and section
9, duplicate detection via the repository's uniqueness constraint).
Insert fails with a conflict error and leaves the table unchanged when a
row with the same key already exists. -/
def insertMonthlyStock (db : List MonthlyStock) (row : MonthlyStock) :
    Except Unit (List MonthlyStock) :=
  if db.any (fun r => sameKey r row.station_id row.product_type row.month_year) then
    Except.error ()
  else
    Except.ok (db ++ [row])

/-- The toast shown by the component after an operation. -/
inductive Toast where
  | success : Toast
  | errorToast : Toast
deriving DecidableEq

/-- `initializeMonthlyStock` (part_000 lines 56-98): look up last month's
row with `.single()`, take `lastMonthData?.actual_closing_stock || 0` as
the opening stock (NaN and null are falsy, so only a finite stored value
carries over; a finite 0 carries over as 0, the same value), insert the
new row with `actual_closing_stock` and `excess` absent, and toast an
error when the insert throws.  `newId` is the id the database assigns to
the inserted row. -/
def initializeMonthlyStock (db : List MonthlyStock) (stationId productType : String)
    (selectedMonth : PeriodKey) (newId : Nat) : List MonthlyStock × Toast :=
  let lastMonthFormatted := prevPeriodKey selectedMonth
  let lastMonthData := db.find? (fun r => sameKey r stationId productType lastMonthFormatted)
  let openingStock : ℚ :=
    match lastMonthData with
    | some r =>
        match r.actual_closing_stock with
        | some (JsNum.num q) => q
        | _ => 0
    | none => 0
  match insertMonthlyStock db
      ⟨newId, stationId, productType, selectedMonth, openingStock, none, none⟩ with
  | Except.ok db' => (db', Toast.success)
  | Except.error _ => (db, Toast.errorToast)

/-- `updateActualClosingStock` (part_000 lines 100-116): parse the dialog
input with `parseFloat` (no validation), compute
`excess = selectedStock.opening_stock - actualClosing`, and write both
fields to the row with the selected id in one single update call. -/
def updateActualClosingStock (db : List MonthlyStock) (selectedStock : MonthlyStock)
    (actualClosingStock : FormInput) : List MonthlyStock :=
  let actualClosing := parseFloat actualClosingStock
  let excess := JsNum.sub (JsNum.num selectedStock.opening_stock) actualClosing
  db.map (fun r =>
    if r.id = selectedStock.id then
      { r with actual_closing_stock := some actualClosing, excess := some excess }
    else r)

/-- An operation of the stock reconciliation engine, for stating
invariants over operation sequences. -/
inductive StockOp where
  | init (stationId productType : String) (m : PeriodKey) (newId : Nat) : StockOp
  | finalize (selectedStock : MonthlyStock) (input : FormInput) : StockOp

/-- Apply one engine operation to the `monthly_stock` table. -/
def applyStockOp (db : List MonthlyStock) : StockOp → List MonthlyStock
  | StockOp.init s p m i => (initializeMonthlyStock db s p m i).1
  | StockOp.finalize st inp => updateActualClosingStock db st inp

/-- Run a sequence of engine operations. -/
def runStockOps (db : List MonthlyStock) (ops : List StockOp) : List MonthlyStock :=
  ops.foldl applyStockOp db

/-- A calendar date, `yyyy-MM-dd`; `month0` is 0-based.  Zero-padded
`yyyy-MM-dd` strings compare lexicographically exactly as the dates do,
so the database's `gte`/`lt` filters become this order. -/
structure CalDate where
  year : Int
  month0 : Int
  day : Int
deriving DecidableEq

/-- `a <= b` on `yyyy-MM-dd` dates (the `.gte` filter, sides swapped). -/
def CalDate.leB (a b : CalDate) : Bool :=
  a.year < b.year ||
    (a.year = b.year && (a.month0 < b.month0 ||
      (a.month0 = b.month0 && a.day ≤ b.day)))

/-- `a < b` on `yyyy-MM-dd` dates (the `.lt` filter). -/
def CalDate.ltB (a b : CalDate) : Bool :=
  a.year < b.year ||
    (a.year = b.year && (a.month0 < b.month0 ||
      (a.month0 = b.month0 && a.day < b.day)))

/-- The date a period key denotes: the first day of its month. -/
def firstDay (pk : PeriodKey) : CalDate := ⟨pk.year, pk.month0, 1⟩

/-- The fields of a `fuel_records` row read by `calculateEstimatedStock`:
`sales_volume` is nullable. -/
structure FuelRow where
  station_code : String
  product_type : String
  record_date : CalDate
  sales_volume : Option ℚ
deriving DecidableEq

/-- The value returned by `calculateEstimatedStock`. -/
structure EstResult where
  totalSalesVolume : ℚ
  estimatedStock : ℚ
deriving DecidableEq

/-- The query filters of part_000 lines 147-153: equality on station code
and product type, `record_date >= monthStart` and `record_date < monthEnd`
where `monthEnd` is the first day of the next calendar month. -/
def inMonthRange (m : PeriodKey) (stationId productType : String) (r : FuelRow) : Bool :=
  r.station_code = stationId && r.product_type = productType &&
    CalDate.leB (firstDay m) r.record_date &&
    CalDate.ltB r.record_date (firstDay (nextPeriodKey m))

/-- `calculateEstimatedStock` (part_000 lines 139-168).  `fuelRecords` is
the `fuel_records` table; `fail` models the Supabase lookup throwing (a
dependency failure), which the catch block turns into a zero-valued
result; `monthlyStocks` is the component state holding this station's
`monthly_stock` rows for the selected month.  Each record's missing
`sales_volume` counts as 0 (`record.sales_volume || 0`), and the opening
stock is `stock?.opening_stock || 0`.  The function only returns the pair;
it writes nothing back. -/
def calculateEstimatedStock (fuelRecords : List FuelRow) (fail : Bool)
    (monthlyStocks : List MonthlyStock) (stationId productType : String)
    (selectedMonth : PeriodKey) : EstResult :=
  if fail then ⟨0, 0⟩
  else
    let salesData := fuelRecords.filter (inMonthRange selectedMonth stationId productType)
    let totalSalesVolume := salesData.foldl (fun sum r => sum + r.sales_volume.getD 0) 0
    let stock := monthlyStocks.find? (fun s => s.product_type = productType)
    let openingStock : ℚ :=
      match stock with
      | some s => s.opening_stock
      | none => 0
    ⟨totalSalesVolume, openingStock - totalSalesVolume⟩

/-- A row of the `pumps` table (FuelRecordForm.tsx lines 13-18; `tank_id`
is unused by the modelled logic). -/
structure Pump where
  id : String
  pump_number : Nat
  product_type : String
deriving DecidableEq

/-- A row of the deduplicated price list (FuelRecordForm.tsx lines 20-23). -/
structure ProductPrice where
  product_type : String
  price_per_litre : ℚ
deriving DecidableEq

/-- `calculateSalesVolume` (FuelRecordForm.tsx lines 87-91):
`Math.max(0, closing - opening)` over `parseFloat(x) || 0` readings. -/
def calculateSalesVolume (meterOpening meterClosing : FormInput) : ℚ :=
  max 0 (parseFloatOr0 meterClosing - parseFloatOr0 meterOpening)

/-- `getProductPrice` (FuelRecordForm.tsx lines 93-96):
`prices.find(...)?.price_per_litre || 0` (a stored price of 0 is falsy and
maps to 0, the same value). -/
def getProductPrice (prices : List ProductPrice) (productType : String) : ℚ :=
  match prices.find? (fun p => p.product_type = productType) with
  | some p => p.price_per_litre
  | none => 0

/-- The row inserted into `fuel_records` by the form (FuelRecordForm.tsx
lines 119-134; `input_mode` is the constant string `manual`, omitted). -/
structure FuelInsert where
  station_code : String
  pump_id : String
  product_type : String
  record_date : CalDate
  opening_stock : ℚ
  closing_stock : ℚ
  meter_opening : ℚ
  meter_closing : ℚ
  sales_volume : ℚ
  price_per_litre : ℚ
  total_sales : ℚ
deriving DecidableEq

/-- `handleSubmit` (FuelRecordForm.tsx lines 98-159), reduced to the row
it inserts: `none` when no pump is selected or the selected id is not in
`pumps` (the error toast paths); otherwise the inserted record, every
numeric field coerced with `parseFloat(x) || 0`. -/
def handleSubmit (pumps : List Pump) (prices : List ProductPrice) (stationId : String)
    (selectedPump : String) (recordDate : CalDate)
    (openingStock closingStock meterOpening meterClosing : FormInput) :
    Option FuelInsert :=
  if selectedPump = "" then none
  else
    match pumps.find? (fun p => p.id = selectedPump) with
    | none => none
    | some pump =>
      let salesVolume := calculateSalesVolume meterOpening meterClosing
      let pricePerLitre := getProductPrice prices pump.product_type
      let totalSales := salesVolume * pricePerLitre
      some ⟨stationId, selectedPump, pump.product_type, recordDate,
        parseFloatOr0 openingStock, parseFloatOr0 closingStock,
        parseFloatOr0 meterOpening, parseFloatOr0 meterClosing,
        salesVolume, pricePerLitre, totalSales⟩

/-- The fields of a `fuel_records` row read by `loadSummaryData`
(DailySummary.tsx lines 37-41): both numeric fields nullable. -/
structure DailyRow where
  product_type : String
  total_sales : Option ℚ
  sales_volume : Option ℚ
deriving DecidableEq

/-- An aggregated per-product entry (the SalesData interface,
DailySummary.tsx lines 13-17). -/
structure SalesData where
  product_type : String
  total_sales : ℚ
  total_volume : ℚ
deriving DecidableEq

/-- A row of the `expenses` query (DailySummary.tsx lines 64-68). -/
structure ExpenseRow where
  amount : Option ℚ
deriving DecidableEq

/-- The in-place mutation `existing.total_sales += ...;
existing.total_volume += ...` of the first entry found for the product
type (DailySummary.tsx lines 47-50). -/
def bumpFirst (acc : List SalesData) (pt : String) (ts tv : ℚ) : List SalesData :=
  match acc with
  | [] => []
  | item :: rest =>
    if item.product_type = pt then
      { item with total_sales := item.total_sales + ts,
                  total_volume := item.total_volume + tv } :: rest
    else item :: bumpFirst rest pt ts tv

/-- One step of the aggregation reduce (DailySummary.tsx lines 46-59):
bump the existing entry when one exists, else push a new entry; missing
record values count as 0. -/
def aggStep (acc : List SalesData) (record : DailyRow) : List SalesData :=
  if acc.any (fun item => item.product_type = record.product_type) then
    bumpFirst acc record.product_type (record.total_sales.getD 0) (record.sales_volume.getD 0)
  else
    acc ++ [⟨record.product_type, record.total_sales.getD 0, record.sales_volume.getD 0⟩]

/-- The aggregation of the day's fuel records by product type
(`aggregatedSales`, DailySummary.tsx lines 46-59). -/
def aggregateSales (records : List DailyRow) : List SalesData :=
  records.foldl aggStep []

/-- `totalExpenses` (DailySummary.tsx line 72): sum of the day's expense
amounts, missing amounts as 0. -/
def totalExpensesOf (es : List ExpenseRow) : ℚ :=
  es.foldl (fun sum e => sum + e.amount.getD 0) 0

/-- `totalSales` (DailySummary.tsx line 81): sum of the aggregated
entries' total_sales. -/
def totalSalesOf (sd : List SalesData) : ℚ :=
  sd.foldl (fun sum i => sum + i.total_sales) 0

/-- `netSales` (DailySummary.tsx line 83): total sales minus total
expenses for the selected day. -/
def netSales (records : List DailyRow) (es : List ExpenseRow) : ℚ :=
  totalSalesOf (aggregateSales records) - totalExpensesOf es

/-! ## Helper lemmas -/

/-- A left fold that adds `f` of every element equals the starting value
plus the sum of the mapped list. -/
theorem foldl_add_map {α : Type} (f : α → ℚ) (l : List α) (a : ℚ) :
    l.foldl (fun s x => s + f x) a = a + (l.map f).sum := by
  induction l generalizing a with
  | nil => simp
  | cons x xs ih => simp [ih, add_assoc]

/-! ## Claims about the stock reconciliation engine -/

/-- C7: for every period key (first day of any calendar month, January
included), `initializeMonthlyStock` computes the previous period key as
the first day of the calendar month immediately preceding it — genuine
start-of-month arithmetic with correct year rollover, not a fixed 30-day
offset. -/
theorem prevPeriodKey_is_previous_month (pk : PeriodKey)
    (h : 0 ≤ pk.month0 ∧ pk.month0 ≤ 11) :
    monthIndex (prevPeriodKey pk) = monthIndex pk - 1 ∧
    0 ≤ (prevPeriodKey pk).month0 ∧ (prevPeriodKey pk).month0 ≤ 11 := by
  unfold prevPeriodKey monthIndex
  by_cases h0 : pk.month0 = 0 <;> simp [h0] <;> omega

/-- Witness for C7 at January 2024: the previous period key of 2024-01 is
2023-12. -/
theorem prevPeriodKey_is_previous_month_witness :
    (0 ≤ (2024 : Int) ∧ (0 : Int) ≤ 11) ∧
    (monthIndex (prevPeriodKey ⟨2024, 0⟩) = monthIndex ⟨2024, 0⟩ - 1 ∧
      0 ≤ (prevPeriodKey ⟨2024, 0⟩).month0 ∧ (prevPeriodKey ⟨2024, 0⟩).month0 ≤ 11) :=
  ⟨by decide, prevPeriodKey_is_previous_month ⟨2024, 0⟩ (by decide)⟩

/-- C1: when no record exists yet for the selected month,
`initializeMonthlyStock` inserts a record whose `opening_stock` is the
prior month's `actual_closing_stock` when the prior record exists and its
`actual_closing_stock` holds a numeric value, and 0 otherwise (no prior
record, or prior record not yet reconciled). -/
theorem initializeMonthlyStock_opening_carry (db : List MonthlyStock)
    (s p : String) (m : PeriodKey) (newId : Nat)
    (hfree : db.any (fun r => sameKey r s p m) = false) :
    (∀ rPrev q, db.find? (fun r => sameKey r s p (prevPeriodKey m)) = some rPrev →
      rPrev.actual_closing_stock = some (JsNum.num q) →
      (initializeMonthlyStock db s p m newId).1 = db ++ [⟨newId, s, p, m, q, none, none⟩]) ∧
    (∀ rPrev, db.find? (fun r => sameKey r s p (prevPeriodKey m)) = some rPrev →
      (∀ q, rPrev.actual_closing_stock ≠ some (JsNum.num q)) →
      (initializeMonthlyStock db s p m newId).1 = db ++ [⟨newId, s, p, m, 0, none, none⟩]) ∧
    (db.find? (fun r => sameKey r s p (prevPeriodKey m)) = none →
      (initializeMonthlyStock db s p m newId).1 = db ++ [⟨newId, s, p, m, 0, none, none⟩]) := by
  refine ⟨?_, ?_, ?_⟩
  · intro rPrev q hfind hacs
    simp [initializeMonthlyStock, insertMonthlyStock, hfind, hacs, hfree]
  · intro rPrev hfind hacs
    cases hcs : rPrev.actual_closing_stock with
    | none => simp [initializeMonthlyStock, insertMonthlyStock, hfind, hcs, hfree]
    | some j =>
      cases j with
      | nan => simp [initializeMonthlyStock, insertMonthlyStock, hfind, hcs, hfree]
      | num q => exact absurd hcs (hacs q)
  · intro hfind
    simp [initializeMonthlyStock, insertMonthlyStock, hfind, hfree]

/-- Witness for C1: the spec's concrete scenario — January 2024 for
(S1, PMS) reconciled with actual closing 150; initializing February 2024
carries 150 forward as the opening stock. -/
theorem initializeMonthlyStock_opening_carry_witness :
    (([⟨1, "S1", "PMS", ⟨2024, 0⟩, 1000, some (JsNum.num 150), some (JsNum.num 850)⟩] :
        List MonthlyStock).any (fun r => sameKey r "S1" "PMS" ⟨2024, 1⟩) = false) ∧
    (initializeMonthlyStock
        [⟨1, "S1", "PMS", ⟨2024, 0⟩, 1000, some (JsNum.num 150), some (JsNum.num 850)⟩]
        "S1" "PMS" ⟨2024, 1⟩ 2).1 =
      [⟨1, "S1", "PMS", ⟨2024, 0⟩, 1000, some (JsNum.num 150), some (JsNum.num 850)⟩,
       ⟨2, "S1", "PMS", ⟨2024, 1⟩, 150, none, none⟩] :=
  ⟨by decide,
    (initializeMonthlyStock_opening_carry
      [⟨1, "S1", "PMS", ⟨2024, 0⟩, 1000, some (JsNum.num 150), some (JsNum.num 850)⟩]
      "S1" "PMS" ⟨2024, 1⟩ 2 (by decide)).1
      ⟨1, "S1", "PMS", ⟨2024, 0⟩, 1000, some (JsNum.num 150), some (JsNum.num 850)⟩
      150 (by decide) rfl⟩

/-- C4: re-initializing a (station, product, month) for which a record
already exists leaves the table unchanged (the duplicate insert is
rejected by the uniqueness constraint, no update is issued) and the call
reports an error toast rather than succeeding silently. -/
theorem initializeMonthlyStock_conflict (db : List MonthlyStock)
    (s p : String) (m : PeriodKey) (newId : Nat) (r : MonthlyStock)
    (hr : r ∈ db) (hkey : sameKey r s p m = true) :
    (initializeMonthlyStock db s p m newId).1 = db ∧
    (initializeMonthlyStock db s p m newId).2 = Toast.errorToast := by
  have hany : db.any (fun x => sameKey x s p m) = true :=
    List.any_eq_true.mpr ⟨r, hr, hkey⟩
  constructor <;> simp [initializeMonthlyStock, insertMonthlyStock, hany]

/-- Witness for C4: re-initializing January 2024 for (S1, PMS) when its
record exists leaves the table as it was and toasts an error. -/
theorem initializeMonthlyStock_conflict_witness :
    ((⟨1, "S1", "PMS", ⟨2024, 0⟩, 1000, none, none⟩ : MonthlyStock) ∈
      ([⟨1, "S1", "PMS", ⟨2024, 0⟩, 1000, none, none⟩] : List MonthlyStock)) ∧
    ((initializeMonthlyStock [⟨1, "S1", "PMS", ⟨2024, 0⟩, 1000, none, none⟩]
        "S1" "PMS" ⟨2024, 0⟩ 2).1 =
      [⟨1, "S1", "PMS", ⟨2024, 0⟩, 1000, none, none⟩] ∧
     (initializeMonthlyStock [⟨1, "S1", "PMS", ⟨2024, 0⟩, 1000, none, none⟩]
        "S1" "PMS" ⟨2024, 0⟩ 2).2 = Toast.errorToast) :=
  ⟨by decide,
    initializeMonthlyStock_conflict [⟨1, "S1", "PMS", ⟨2024, 0⟩, 1000, none, none⟩]
      "S1" "PMS" ⟨2024, 0⟩ 2 ⟨1, "S1", "PMS", ⟨2024, 0⟩, 1000, none, none⟩
      (by decide) (by decide)⟩

/-- C2: for every existing record and every finite amount,
`updateActualClosingStock` writes `actual_closing_stock` equal to the
amount and `excess = opening_stock - amount` to the row with the selected
id, in one update; an amount above the opening stock simply yields a
negative excess, it is not rejected. -/
theorem updateActualClosingStock_writes (db : List MonthlyStock)
    (stock r : MonthlyStock) (q : ℚ) (hr : r ∈ db) (hid : r.id = stock.id) :
    { r with actual_closing_stock := some (JsNum.num q),
             excess := some (JsNum.num (stock.opening_stock - q)) } ∈
      updateActualClosingStock db stock (some q) := by
  simp only [updateActualClosingStock, parseFloat, JsNum.sub]
  exact List.mem_map.mpr ⟨r, hr, by rw [if_pos hid]⟩

/-- Witness for C2: the spec's scenario — opening stock 500 finalized with
actual closing 600 yields excess 500 − 600 = −100 and the write happens. -/
theorem updateActualClosingStock_writes_witness :
    ((500 : ℚ) - 600 = -100) ∧
    ({ id := 1, station_id := "S1", product_type := "PMS", month_year := ⟨2024, 0⟩,
       opening_stock := 500, actual_closing_stock := some (JsNum.num 600),
       excess := some (JsNum.num ((500 : ℚ) - 600)) } : MonthlyStock) ∈
      updateActualClosingStock [⟨1, "S1", "PMS", ⟨2024, 0⟩, 500, none, none⟩]
        ⟨1, "S1", "PMS", ⟨2024, 0⟩, 500, none, none⟩ (some 600) :=
  ⟨by norm_num,
    updateActualClosingStock_writes [⟨1, "S1", "PMS", ⟨2024, 0⟩, 500, none, none⟩]
      ⟨1, "S1", "PMS", ⟨2024, 0⟩, 500, none, none⟩
      ⟨1, "S1", "PMS", ⟨2024, 0⟩, 500, none, none⟩ 600 (by decide) rfl⟩

/-- C5 counterexample: a non-numeric amount (parseFloat yields NaN) is not
rejected — `updateActualClosingStock` writes NaN into both
`actual_closing_stock` and `excess`, and the record does not stay
unchanged. -/
theorem updateActualClosingStock_nan_counterexample :
    updateActualClosingStock [⟨1, "S1", "PMS", ⟨2024, 0⟩, 500, none, none⟩]
        ⟨1, "S1", "PMS", ⟨2024, 0⟩, 500, none, none⟩ none =
      [⟨1, "S1", "PMS", ⟨2024, 0⟩, 500, some JsNum.nan, some JsNum.nan⟩] ∧
    ([⟨1, "S1", "PMS", ⟨2024, 0⟩, 500, some JsNum.nan, some JsNum.nan⟩] :
        List MonthlyStock) ≠
      [⟨1, "S1", "PMS", ⟨2024, 0⟩, 500, none, none⟩] := by
  decide

/-- C5 amended: `updateActualClosingStock` performs no validation — for a
non-numeric amount it writes `actual_closing_stock = NaN` and
`excess = NaN` (NaN-propagating subtraction) to the target record instead
of rejecting the input before the write. -/
theorem updateActualClosingStock_nan_write (db : List MonthlyStock)
    (stock r : MonthlyStock) (hr : r ∈ db) (hid : r.id = stock.id) :
    { r with actual_closing_stock := some JsNum.nan,
             excess := some JsNum.nan } ∈
      updateActualClosingStock db stock none := by
  simp only [updateActualClosingStock, parseFloat, JsNum.sub]
  exact List.mem_map.mpr ⟨r, hr, by rw [if_pos hid]⟩

/-- Witness for the amended C5: finalizing the concrete record with
malformed text writes NaN into both fields. -/
theorem updateActualClosingStock_nan_write_witness :
    ({ id := 1, station_id := "S1", product_type := "PMS", month_year := ⟨2024, 0⟩,
       opening_stock := 500, actual_closing_stock := some JsNum.nan,
       excess := some JsNum.nan } : MonthlyStock) ∈
      updateActualClosingStock [⟨1, "S1", "PMS", ⟨2024, 0⟩, 500, none, none⟩]
        ⟨1, "S1", "PMS", ⟨2024, 0⟩, 500, none, none⟩ none :=
  updateActualClosingStock_nan_write [⟨1, "S1", "PMS", ⟨2024, 0⟩, 500, none, none⟩]
    ⟨1, "S1", "PMS", ⟨2024, 0⟩, 500, none, none⟩
    ⟨1, "S1", "PMS", ⟨2024, 0⟩, 500, none, none⟩ (by decide) rfl

/-- C3: after every sequence of initialize and finalize operations, every
record has `actual_closing_stock` and `excess` both present or both
absent: initialize inserts the record with both absent, and finalize sets
both in its one single update. -/
theorem stockOps_preserve_reconciled_together (ops : List StockOp)
    (db : List MonthlyStock)
    (hdb : ∀ r ∈ db, r.actual_closing_stock.isSome = r.excess.isSome) :
    ∀ r ∈ runStockOps db ops, r.actual_closing_stock.isSome = r.excess.isSome := by
  induction ops generalizing db with
  | nil => simpa [runStockOps] using hdb
  | cons op rest ih =>
    have hstep : ∀ r ∈ applyStockOp db op,
        r.actual_closing_stock.isSome = r.excess.isSome := by
      cases op with
      | init s p m i =>
        intro r hr
        by_cases hany : db.any (fun x => sameKey x s p m)
        · simp only [applyStockOp, initializeMonthlyStock, insertMonthlyStock,
            hany, if_true] at hr
          exact hdb r hr
        · simp only [applyStockOp, initializeMonthlyStock, insertMonthlyStock,
            Bool.not_eq_true] at hr
          rw [if_neg (by simp [hany])] at hr
          rcases List.mem_append.mp hr with h | h
          · exact hdb r h
          · rcases List.mem_singleton.mp h with rfl
            rfl
      | finalize st inp =>
        intro r hr
        simp only [applyStockOp, updateActualClosingStock] at hr
        rcases List.mem_map.mp hr with ⟨x, hx, rfl⟩
        by_cases h : x.id = st.id <;> simp [h, hdb x hx]
    have : runStockOps db (op :: rest) = runStockOps (applyStockOp db op) rest := rfl
    rw [this]
    exact ih (applyStockOp db op) hstep

/-- Witness for C3: starting from an empty table, initialize January 2024
for (S1, PMS) and finalize it with 150; the resulting record holds both
`actual_closing_stock` and `excess`. -/
theorem stockOps_preserve_reconciled_together_witness :
    (∀ r ∈ ([] : List MonthlyStock),
      r.actual_closing_stock.isSome = r.excess.isSome) ∧
    ((⟨1, "S1", "PMS", ⟨2024, 0⟩, 0, some (JsNum.num 150),
        some (JsNum.num ((0 : ℚ) - 150))⟩ : MonthlyStock) ∈
      runStockOps []
        [StockOp.init "S1" "PMS" ⟨2024, 0⟩ 1,
         StockOp.finalize ⟨1, "S1", "PMS", ⟨2024, 0⟩, 0, none, none⟩ (some 150)]) ∧
    (some (JsNum.num 150)).isSome = (some (JsNum.num ((0 : ℚ) - 150))).isSome :=
  ⟨by simp,
   List.mem_singleton.mpr rfl,
   stockOps_preserve_reconciled_together
     [StockOp.init "S1" "PMS" ⟨2024, 0⟩ 1,
      StockOp.finalize ⟨1, "S1", "PMS", ⟨2024, 0⟩, 0, none, none⟩ (some 150)]
     [] (by simp)
     ⟨1, "S1", "PMS", ⟨2024, 0⟩, 0, some (JsNum.num 150),
       some (JsNum.num ((0 : ℚ) - 150))⟩
     (List.mem_singleton.mpr rfl)⟩

/-- C6: `calculateEstimatedStock` sums the `sales_volume` of the fuel
records matching the station, the product and the inclusive-start /
exclusive-next-month date range (missing volumes as 0); the estimate is
the opening stock of the current record (0 when none exists) minus that
total; the range's upper bound really is the immediately following
calendar month; and a failing lookup yields the zero result instead of
propagating.  The function returns only the pair — it writes nothing. -/
theorem calculateEstimatedStock_spec (fuelRecords : List FuelRow)
    (monthlyStocks : List MonthlyStock) (stationId productType : String)
    (m : PeriodKey) :
    ((calculateEstimatedStock fuelRecords false monthlyStocks stationId productType
        m).totalSalesVolume =
      ((fuelRecords.filter (inMonthRange m stationId productType)).map
        (fun r => r.sales_volume.getD 0)).sum) ∧
    ((calculateEstimatedStock fuelRecords false monthlyStocks stationId productType
        m).estimatedStock =
      (match monthlyStocks.find? (fun s => s.product_type = productType) with
        | some s => s.opening_stock
        | none => 0) -
      ((fuelRecords.filter (inMonthRange m stationId productType)).map
        (fun r => r.sales_volume.getD 0)).sum) ∧
    ((0 ≤ m.month0 ∧ m.month0 ≤ 11) →
      monthIndex (nextPeriodKey m) = monthIndex m + 1) ∧
    (calculateEstimatedStock fuelRecords true monthlyStocks stationId productType
        m = ⟨0, 0⟩) := by
  refine ⟨?_, ?_, ?_, rfl⟩
  · simp only [calculateEstimatedStock, if_false, Bool.false_eq_true]
    exact (foldl_add_map (fun (r : FuelRow) => r.sales_volume.getD 0) _ 0).trans
      (zero_add _)
  · simp only [calculateEstimatedStock, if_false, Bool.false_eq_true]
    rw [foldl_add_map (fun (r : FuelRow) => r.sales_volume.getD 0) _ 0, zero_add]
  · intro h
    unfold nextPeriodKey monthIndex
    by_cases h11 : m.month0 = 11 <;> simp [h11] <;> omega

/-- Witness for C6: February 2024 for (S1, PMS) with opening stock 150 and
two in-range sales records summing to 60 (one record of another month and
one null volume excluded) gives total 60 and estimate 90; a failing lookup
gives the zero pair. -/
theorem calculateEstimatedStock_spec_witness :
    ((calculateEstimatedStock
        [⟨"S1", "PMS", ⟨2024, 1, 3⟩, some 25⟩,
         ⟨"S1", "PMS", ⟨2024, 1, 10⟩, some 35⟩,
         ⟨"S1", "PMS", ⟨2024, 1, 12⟩, none⟩,
         ⟨"S1", "PMS", ⟨2024, 2, 1⟩, some 999⟩]
        false [⟨2, "S1", "PMS", ⟨2024, 1⟩, 150, none, none⟩]
        "S1" "PMS" ⟨2024, 1⟩).totalSalesVolume = 60 ∧
      (calculateEstimatedStock
        [⟨"S1", "PMS", ⟨2024, 1, 3⟩, some 25⟩,
         ⟨"S1", "PMS", ⟨2024, 1, 10⟩, some 35⟩,
         ⟨"S1", "PMS", ⟨2024, 1, 12⟩, none⟩,
         ⟨"S1", "PMS", ⟨2024, 2, 1⟩, some 999⟩]
        false [⟨2, "S1", "PMS", ⟨2024, 1⟩, 150, none, none⟩]
        "S1" "PMS" ⟨2024, 1⟩).estimatedStock = 90) ∧
    ((0 ≤ (1 : Int) ∧ (1 : Int) ≤ 11) →
      monthIndex (nextPeriodKey ⟨2024, 1⟩) = monthIndex ⟨2024, 1⟩ + 1) ∧
    calculateEstimatedStock [] true [] "S1" "PMS" ⟨2024, 1⟩ = ⟨0, 0⟩ :=
  ⟨by norm_num [calculateEstimatedStock, inMonthRange, firstDay, nextPeriodKey,
      CalDate.leB, CalDate.ltB, List.filter, List.find?],
   fun _ => ((calculateEstimatedStock_spec [] [] "S1" "PMS" ⟨2024, 1⟩).2.2.1
     (by norm_num)),
   (calculateEstimatedStock_spec [] [] "S1" "PMS" ⟨2024, 1⟩).2.2.2⟩

/-- C8 counterexample: with meter opening 100 and meter closing 50 the
persisted sales volume is 0, not meter closing − meter opening = −50: the
form clamps the difference at zero with `Math.max(0, ...)`. -/
theorem handleSubmit_clamp_counterexample :
    (handleSubmit [⟨"p1", 1, "PMS"⟩] [⟨"PMS", 650⟩] "S1" "p1" ⟨2024, 0, 5⟩
        (some 0) (some 0) (some 100) (some 50)).map (fun fr => fr.sales_volume) =
      some 0 ∧
    (0 : ℚ) ≠ 50 - 100 := by
  refine ⟨?_, by norm_num⟩
  have h1 : handleSubmit [⟨"p1", 1, "PMS"⟩] [⟨"PMS", 650⟩] "S1" "p1" ⟨2024, 0, 5⟩
      (some 0) (some 0) (some 100) (some 50) =
      some ⟨"S1", "p1", "PMS", ⟨2024, 0, 5⟩, 0, 0, 100, 50,
        max 0 ((50 : ℚ) - 100), 650, max 0 ((50 : ℚ) - 100) * 650⟩ := rfl
  have h2 : max 0 ((50 : ℚ) - 100) = 0 :=
    max_eq_left (by norm_num : (50 : ℚ) - 100 ≤ 0)
  rw [h1]
  simp [h2]

/-- C8 amended: for every submitted fuel record, the persisted sales
volume equals `max 0 (meter closing − meter opening)` — the difference
clamped below at zero — and the persisted total sales equals that sales
volume multiplied by the product's price per litre. -/
theorem handleSubmit_sales_formula (pumps : List Pump) (prices : List ProductPrice)
    (stationId selectedPump : String) (recordDate : CalDate)
    (os cs mo mc : FormInput) (fr : FuelInsert)
    (h : handleSubmit pumps prices stationId selectedPump recordDate
      os cs mo mc = some fr) :
    fr.sales_volume = max 0 (parseFloatOr0 mc - parseFloatOr0 mo) ∧
    fr.price_per_litre = getProductPrice prices fr.product_type ∧
    fr.total_sales = fr.sales_volume * fr.price_per_litre := by
  unfold handleSubmit at h
  by_cases hsp : selectedPump = ""
  · rw [if_pos hsp] at h; cases h
  · rw [if_neg hsp] at h
    cases hf : pumps.find? (fun p => p.id = selectedPump) with
    | none =>
      simp only [hf] at h
      exact Option.noConfusion h
    | some pump =>
      simp only [hf] at h
      cases h
      exact ⟨rfl, rfl, rfl⟩

/-- Witness for the amended C8: the concrete submission with meters 100
and 50 and price 650 satisfies the clamped formula. -/
theorem handleSubmit_sales_formula_witness :
    (⟨"S1", "p1", "PMS", ⟨2024, 0, 5⟩, 0, 0, 100, 50,
        max 0 ((50 : ℚ) - 100), 650, max 0 ((50 : ℚ) - 100) * 650⟩ :
      FuelInsert).sales_volume =
      max 0 (parseFloatOr0 (some 50) - parseFloatOr0 (some 100)) ∧
    (⟨"S1", "p1", "PMS", ⟨2024, 0, 5⟩, 0, 0, 100, 50,
        max 0 ((50 : ℚ) - 100), 650, max 0 ((50 : ℚ) - 100) * 650⟩ :
      FuelInsert).price_per_litre =
      getProductPrice [⟨"PMS", 650⟩]
        (⟨"S1", "p1", "PMS", ⟨2024, 0, 5⟩, 0, 0, 100, 50,
          max 0 ((50 : ℚ) - 100), 650, max 0 ((50 : ℚ) - 100) * 650⟩ :
          FuelInsert).product_type ∧
    (⟨"S1", "p1", "PMS", ⟨2024, 0, 5⟩, 0, 0, 100, 50,
        max 0 ((50 : ℚ) - 100), 650, max 0 ((50 : ℚ) - 100) * 650⟩ :
      FuelInsert).total_sales =
      (⟨"S1", "p1", "PMS", ⟨2024, 0, 5⟩, 0, 0, 100, 50,
        max 0 ((50 : ℚ) - 100), 650, max 0 ((50 : ℚ) - 100) * 650⟩ :
        FuelInsert).sales_volume *
      (⟨"S1", "p1", "PMS", ⟨2024, 0, 5⟩, 0, 0, 100, 50,
        max 0 ((50 : ℚ) - 100), 650, max 0 ((50 : ℚ) - 100) * 650⟩ :
        FuelInsert).price_per_litre :=
  handleSubmit_sales_formula [⟨"p1", 1, "PMS"⟩] [⟨"PMS", 650⟩] "S1" "p1"
    ⟨2024, 0, 5⟩ (some 0) (some 0) (some 100) (some 50)
    ⟨"S1", "p1", "PMS", ⟨2024, 0, 5⟩, 0, 0, 100, 50,
      max 0 ((50 : ℚ) - 100), 650, max 0 ((50 : ℚ) - 100) * 650⟩ rfl

/-- C9: every numeric form field whose text does not parse as a number is
coerced to 0 rather than rejected, and when no price row exists for the
pump's product the record is inserted with `price_per_litre = 0` and hence
`total_sales = 0`; the submission still goes through (`isSome`). -/
theorem handleSubmit_coercions (pumps : List Pump) (prices : List ProductPrice)
    (stationId selectedPump : String) (recordDate : CalDate)
    (os cs mo mc : FormInput) (pump : Pump)
    (hsp : ¬ selectedPump = "")
    (hfind : pumps.find? (fun p => p.id = selectedPump) = some pump) :
    (∀ fr, handleSubmit pumps prices stationId selectedPump recordDate
        os cs mo mc = some fr →
      ((os = none → fr.opening_stock = 0) ∧
       (cs = none → fr.closing_stock = 0) ∧
       (mo = none → fr.meter_opening = 0) ∧
       (mc = none → fr.meter_closing = 0) ∧
       (prices.find? (fun p => p.product_type = pump.product_type) = none →
         fr.price_per_litre = 0 ∧ fr.total_sales = 0))) ∧
    (handleSubmit pumps prices stationId selectedPump recordDate
      os cs mo mc).isSome = true := by
  constructor
  · intro fr h
    unfold handleSubmit at h
    rw [if_neg hsp] at h
    simp only [hfind] at h
    cases h
    refine ⟨?_, ?_, ?_, ?_, ?_⟩
    · rintro rfl; rfl
    · rintro rfl; rfl
    · rintro rfl; rfl
    · rintro rfl; rfl
    · intro hnone
      constructor
      · show getProductPrice prices pump.product_type = 0
        unfold getProductPrice
        rw [hnone]
      · show calculateSalesVolume mo mc * getProductPrice prices pump.product_type = 0
        have : getProductPrice prices pump.product_type = 0 := by
          unfold getProductPrice
          rw [hnone]
        rw [this, mul_zero]
  · unfold handleSubmit
    rw [if_neg hsp]
    simp [hfind]

/-- Witness for C9: the pump exists, every field is malformed and there is
no price row; the record is inserted with zeros throughout. -/
theorem handleSubmit_coercions_witness :
    (∀ fr, handleSubmit [⟨"p1", 1, "PMS"⟩] [] "S1" "p1" ⟨2024, 0, 5⟩
        none none none none = some fr →
      ((none = (none : FormInput) → fr.opening_stock = 0) ∧
       (none = (none : FormInput) → fr.closing_stock = 0) ∧
       (none = (none : FormInput) → fr.meter_opening = 0) ∧
       (none = (none : FormInput) → fr.meter_closing = 0) ∧
       (([] : List ProductPrice).find?
          (fun p => p.product_type = (⟨"p1", 1, "PMS"⟩ : Pump).product_type) = none →
         fr.price_per_litre = 0 ∧ fr.total_sales = 0))) ∧
    (handleSubmit [⟨"p1", 1, "PMS"⟩] [] "S1" "p1" ⟨2024, 0, 5⟩
      none none none none).isSome = true :=
  handleSubmit_coercions [⟨"p1", 1, "PMS"⟩] [] "S1" "p1" ⟨2024, 0, 5⟩
    none none none none ⟨"p1", 1, "PMS"⟩ (by decide) (by decide)

/-! ## Lemmas about the daily-summary aggregation -/

/-- The aggregated total sales recorded for a product type (0 when the
aggregation has no entry for it). -/
def entryTS (acc : List SalesData) (pt : String) : ℚ :=
  ((acc.find? (fun i => i.product_type = pt)).map (fun i => i.total_sales)).getD 0

/-- The aggregated total volume recorded for a product type (0 when the
aggregation has no entry for it). -/
def entryTV (acc : List SalesData) (pt : String) : ℚ :=
  ((acc.find? (fun i => i.product_type = pt)).map (fun i => i.total_volume)).getD 0

/-- `bumpFirst` keeps the sequence of product types unchanged. -/
theorem bumpFirst_map_pt (acc : List SalesData) (pt : String) (ts tv : ℚ) :
    (bumpFirst acc pt ts tv).map (fun i => i.product_type) =
      acc.map (fun i => i.product_type) := by
  induction acc with
  | nil => rfl
  | cons item rest ih =>
    unfold bumpFirst
    by_cases h : item.product_type = pt
    · simp [h]
    · simp [h, ih]

/-- When an entry for `pt` exists, `bumpFirst` turns the first found entry
into the bumped entry. -/
theorem bumpFirst_find_eq (acc : List SalesData) (pt : String) (ts tv : ℚ)
    (i : SalesData) (h : acc.find? (fun x => x.product_type = pt) = some i) :
    (bumpFirst acc pt ts tv).find? (fun x => x.product_type = pt) =
      some ⟨i.product_type, i.total_sales + ts, i.total_volume + tv⟩ := by
  induction acc with
  | nil => simp at h
  | cons item rest ih =>
    by_cases hpt : item.product_type = pt
    · rw [List.find?_cons_of_pos _ (by simpa using hpt)] at h
      cases h
      unfold bumpFirst
      rw [if_pos hpt]
      exact List.find?_cons_of_pos _ (by simpa using hpt)
    · rw [List.find?_cons_of_neg _ (by simpa using hpt)] at h
      unfold bumpFirst
      rw [if_neg hpt, List.find?_cons_of_neg _ (by simpa using hpt)]
      exact ih h

/-- `bumpFirst` for product type `pt` does not change what `find?` sees
for any other product type. -/
theorem bumpFirst_find_ne (acc : List SalesData) (pt pt' : String) (ts tv : ℚ)
    (h : ¬ pt' = pt) :
    (bumpFirst acc pt ts tv).find? (fun x => x.product_type = pt') =
      acc.find? (fun x => x.product_type = pt') := by
  induction acc with
  | nil => rfl
  | cons item rest ih =>
    unfold bumpFirst
    by_cases hpt : item.product_type = pt
    · rw [if_pos hpt]
      have hne : ¬ item.product_type = pt' := by
        rw [hpt]; intro hc; exact h hc.symm
      rw [List.find?_cons_of_neg _ (by simpa using hne),
        List.find?_cons_of_neg _ (by simpa using hne)]
    · rw [if_neg hpt]
      by_cases hh : item.product_type = pt'
      · rw [List.find?_cons_of_pos _ (by simpa using hh),
          List.find?_cons_of_pos _ (by simpa using hh)]
      · rw [List.find?_cons_of_neg _ (by simpa using hh),
          List.find?_cons_of_neg _ (by simpa using hh)]
        exact ih

/-- One aggregation step adds the record's (null-coerced) total sales to
exactly the record's product type. -/
theorem aggStep_entryTS (acc : List SalesData) (r : DailyRow) (pt : String) :
    entryTS (aggStep acc r) pt =
      entryTS acc pt +
        (if r.product_type = pt then r.total_sales.getD 0 else 0) := by
  unfold aggStep
  by_cases hany : acc.any (fun item => item.product_type = r.product_type)
  · rw [if_pos hany]
    by_cases hpt : r.product_type = pt
    · subst hpt
      have hs : (acc.find? (fun x => x.product_type = r.product_type)).isSome := by
        rw [List.find?_isSome]
        simpa using List.any_eq_true.mp hany
      obtain ⟨i, hi⟩ := Option.isSome_iff_exists.mp hs
      unfold entryTS
      rw [bumpFirst_find_eq acc _ _ _ i hi, hi]
      simp
    · unfold entryTS
      rw [bumpFirst_find_ne acc _ pt _ _ (fun hc => hpt hc.symm)]
      simp [hpt]
  · rw [if_neg hany]
    have hnone : acc.find? (fun x => x.product_type = r.product_type) = none := by
      rw [List.find?_eq_none]
      intro x hx hpx
      exact hany (List.any_eq_true.mpr ⟨x, hx, hpx⟩)
    by_cases hpt : r.product_type = pt
    · subst hpt
      unfold entryTS
      rw [List.find?_append, hnone, Option.none_or,
        List.find?_cons_of_pos _ (by simp)]
      simp
    · unfold entryTS
      rw [List.find?_append,
        List.find?_cons_of_neg _ (by simpa using hpt)]
      simp [hpt]

/-- One aggregation step adds the record's (null-coerced) sales volume to
exactly the record's product type. -/
theorem aggStep_entryTV (acc : List SalesData) (r : DailyRow) (pt : String) :
    entryTV (aggStep acc r) pt =
      entryTV acc pt +
        (if r.product_type = pt then r.sales_volume.getD 0 else 0) := by
  unfold aggStep
  by_cases hany : acc.any (fun item => item.product_type = r.product_type)
  · rw [if_pos hany]
    by_cases hpt : r.product_type = pt
    · subst hpt
      have hs : (acc.find? (fun x => x.product_type = r.product_type)).isSome := by
        rw [List.find?_isSome]
        simpa using List.any_eq_true.mp hany
      obtain ⟨i, hi⟩ := Option.isSome_iff_exists.mp hs
      unfold entryTV
      rw [bumpFirst_find_eq acc _ _ _ i hi, hi]
      simp
    · unfold entryTV
      rw [bumpFirst_find_ne acc _ pt _ _ (fun hc => hpt hc.symm)]
      simp [hpt]
  · rw [if_neg hany]
    have hnone : acc.find? (fun x => x.product_type = r.product_type) = none := by
      rw [List.find?_eq_none]
      intro x hx hpx
      exact hany (List.any_eq_true.mpr ⟨x, hx, hpx⟩)
    by_cases hpt : r.product_type = pt
    · subst hpt
      unfold entryTV
      rw [List.find?_append, hnone, Option.none_or,
        List.find?_cons_of_pos _ (by simp)]
      simp
    · unfold entryTV
      rw [List.find?_append,
        List.find?_cons_of_neg _ (by simpa using hpt)]
      simp [hpt]

/-- One aggregation step keeps the product types free of duplicates. -/
theorem aggStep_keys_nodup (acc : List SalesData) (r : DailyRow)
    (h : (acc.map (fun i => i.product_type)).Nodup) :
    ((aggStep acc r).map (fun i => i.product_type)).Nodup := by
  unfold aggStep
  by_cases hany : acc.any (fun item => item.product_type = r.product_type)
  · rw [if_pos hany, bumpFirst_map_pt]
    exact h
  · rw [if_neg hany, List.map_append]
    refine List.Nodup.append h (by simp) ?_
    intro pt hpt hsing
    rcases List.mem_map.mp hpt with ⟨i, hi, rfl⟩
    have : i.product_type = r.product_type := by simpa using hsing
    exact hany (List.any_eq_true.mpr ⟨i, hi, by simpa using this⟩)

/-- The aggregation of a record list has no duplicate product types. -/
theorem aggregateSales_keys_nodup (rs : List DailyRow) :
    ((aggregateSales rs).map (fun i => i.product_type)).Nodup := by
  suffices h : ∀ acc : List SalesData, (acc.map (fun i => i.product_type)).Nodup →
      ((rs.foldl aggStep acc).map (fun i => i.product_type)).Nodup by
    exact h [] (by simp)
  induction rs with
  | nil => intro acc h; exact h
  | cons r rest ih =>
    intro acc h
    exact ih (aggStep acc r) (aggStep_keys_nodup acc r h)

/-- Folding the aggregation over records adds to each product type exactly
the sum of that product's (null-coerced) total sales. -/
theorem foldl_aggStep_entryTS (rs : List DailyRow) (acc : List SalesData)
    (pt : String) :
    entryTS (rs.foldl aggStep acc) pt =
      entryTS acc pt +
        ((rs.filter (fun r => r.product_type = pt)).map
          (fun r => r.total_sales.getD 0)).sum := by
  induction rs generalizing acc with
  | nil => simp
  | cons r rest ih =>
    rw [List.foldl_cons, ih (aggStep acc r), aggStep_entryTS, List.filter_cons]
    by_cases hpt : r.product_type = pt
    · rw [if_pos hpt, if_pos (by simpa using hpt), List.map_cons, List.sum_cons]
      ring
    · rw [if_neg hpt, if_neg (by simpa using hpt)]
      ring

/-- Folding the aggregation over records adds to each product type exactly
the sum of that product's (null-coerced) sales volumes. -/
theorem foldl_aggStep_entryTV (rs : List DailyRow) (acc : List SalesData)
    (pt : String) :
    entryTV (rs.foldl aggStep acc) pt =
      entryTV acc pt +
        ((rs.filter (fun r => r.product_type = pt)).map
          (fun r => r.sales_volume.getD 0)).sum := by
  induction rs generalizing acc with
  | nil => simp
  | cons r rest ih =>
    rw [List.foldl_cons, ih (aggStep acc r), aggStep_entryTV, List.filter_cons]
    by_cases hpt : r.product_type = pt
    · rw [if_pos hpt, if_pos (by simpa using hpt), List.map_cons, List.sum_cons]
      ring
    · rw [if_neg hpt, if_neg (by simpa using hpt)]
      ring

/-- In a list whose product types are duplicate-free, `find?` on a
member's product type returns that member. -/
theorem find?_eq_of_mem_nodupKeys (sd : List SalesData) (e : SalesData)
    (hnd : (sd.map (fun i => i.product_type)).Nodup) (he : e ∈ sd) :
    sd.find? (fun i => i.product_type = e.product_type) = some e := by
  induction sd with
  | nil => simp at he
  | cons x rest ih =>
    rw [List.map_cons, List.nodup_cons] at hnd
    rcases List.mem_cons.mp he with rfl | hrest
    · exact List.find?_cons_of_pos _ (by simp)
    · have hx : ¬ x.product_type = e.product_type := by
        intro hc
        exact hnd.1 (hc ▸ List.mem_map.mpr ⟨e, hrest, rfl⟩)
      rw [List.find?_cons_of_neg _ (by simpa using hx)]
      exact ih hnd.2 hrest

/-- `bumpFirst` adds `ts` to the total-sales column sum when an entry for
the product type exists. -/
theorem bumpFirst_sum_ts (acc : List SalesData) (pt : String) (ts tv : ℚ)
    (h : acc.any (fun i => i.product_type = pt) = true) :
    ((bumpFirst acc pt ts tv).map (fun i => i.total_sales)).sum =
      (acc.map (fun i => i.total_sales)).sum + ts := by
  induction acc with
  | nil => simp at h
  | cons item rest ih =>
    unfold bumpFirst
    by_cases hpt : item.product_type = pt
    · rw [if_pos hpt]
      simp only [List.map_cons, List.sum_cons]
      ring
    · rw [if_neg hpt]
      have h' : rest.any (fun i => i.product_type = pt) = true := by
        rcases List.any_eq_true.mp h with ⟨i, hi, hip⟩
        rcases List.mem_cons.mp hi with rfl | hirest
        · exact absurd (by simpa using hip) hpt
        · exact List.any_eq_true.mpr ⟨i, hirest, hip⟩
      simp only [List.map_cons, List.sum_cons, ih h']
      ring

/-- One aggregation step adds the record's (null-coerced) total sales to
the total-sales column sum. -/
theorem aggStep_sum_ts (acc : List SalesData) (r : DailyRow) :
    ((aggStep acc r).map (fun i => i.total_sales)).sum =
      (acc.map (fun i => i.total_sales)).sum + r.total_sales.getD 0 := by
  unfold aggStep
  by_cases hany : acc.any (fun item => item.product_type = r.product_type)
  · rw [if_pos hany]
    exact bumpFirst_sum_ts acc _ _ _ hany
  · rw [if_neg hany]
    simp

/-- The total-sales column sum of the aggregation equals the flat sum of
the records' (null-coerced) total sales. -/
theorem aggregateSales_sum_ts (rs : List DailyRow) :
    ((aggregateSales rs).map (fun i => i.total_sales)).sum =
      (rs.map (fun r => r.total_sales.getD 0)).sum := by
  suffices h : ∀ acc : List SalesData,
      ((rs.foldl aggStep acc).map (fun i => i.total_sales)).sum =
        (acc.map (fun i => i.total_sales)).sum +
          (rs.map (fun r => r.total_sales.getD 0)).sum by
    simpa using h []
  induction rs with
  | nil => intro acc; simp
  | cons r rest ih =>
    intro acc
    rw [List.foldl_cons, ih (aggStep acc r), aggStep_sum_ts]
    simp only [List.map_cons, List.sum_cons]
    ring

/-- C10: the daily aggregation has at most one entry per product type;
each entry's total_sales and total_volume are the sums of that product's
records' total_sales and sales_volume with missing values as 0; and the
displayed net sales equals the sum of all records' total_sales minus the
sum of the day's expense amounts (missing amounts as 0). -/
theorem dailySummary_aggregation (rs : List DailyRow) (es : List ExpenseRow) :
    ((aggregateSales rs).map (fun i => i.product_type)).Nodup ∧
    (∀ e ∈ aggregateSales rs,
      e.total_sales = ((rs.filter (fun r => r.product_type = e.product_type)).map
        (fun r => r.total_sales.getD 0)).sum ∧
      e.total_volume = ((rs.filter (fun r => r.product_type = e.product_type)).map
        (fun r => r.sales_volume.getD 0)).sum) ∧
    netSales rs es =
      (rs.map (fun r => r.total_sales.getD 0)).sum -
        (es.map (fun e => e.amount.getD 0)).sum := by
  refine ⟨aggregateSales_keys_nodup rs, ?_, ?_⟩
  · intro e he
    have hf : (rs.foldl aggStep []).find?
        (fun i => i.product_type = e.product_type) = some e :=
      find?_eq_of_mem_nodupKeys _ e (aggregateSales_keys_nodup rs) he
    have hts := foldl_aggStep_entryTS rs [] e.product_type
    have htv := foldl_aggStep_entryTV rs [] e.product_type
    unfold entryTS at hts
    unfold entryTV at htv
    rw [hf] at hts htv
    refine ⟨?_, ?_⟩
    · simpa using hts
    · simpa using htv
  · unfold netSales totalSalesOf totalExpensesOf
    rw [foldl_add_map (fun (e : ExpenseRow) => e.amount.getD 0) es 0, zero_add,
      foldl_add_map (fun (i : SalesData) => i.total_sales) (aggregateSales rs) 0,
      zero_add, aggregateSales_sum_ts]

/-- Witness for C10: three records of two products — the PMS entry of the
aggregation carries the PMS sums (missing values as 0). -/
theorem dailySummary_aggregation_witness :
    (⟨"PMS", (10 : ℚ) + 0, (5 : ℚ) + 7⟩ : SalesData).total_sales =
      ((([⟨"PMS", some 10, some 5⟩, ⟨"AGO", some 20, none⟩,
          ⟨"PMS", none, some 7⟩] : List DailyRow).filter
        (fun r => r.product_type =
          (⟨"PMS", (10 : ℚ) + 0, (5 : ℚ) + 7⟩ : SalesData).product_type)).map
        (fun r => r.total_sales.getD 0)).sum ∧
    (⟨"PMS", (10 : ℚ) + 0, (5 : ℚ) + 7⟩ : SalesData).total_volume =
      ((([⟨"PMS", some 10, some 5⟩, ⟨"AGO", some 20, none⟩,
          ⟨"PMS", none, some 7⟩] : List DailyRow).filter
        (fun r => r.product_type =
          (⟨"PMS", (10 : ℚ) + 0, (5 : ℚ) + 7⟩ : SalesData).product_type)).map
        (fun r => r.sales_volume.getD 0)).sum :=
  (dailySummary_aggregation
      [⟨"PMS", some 10, some 5⟩, ⟨"AGO", some 20, none⟩, ⟨"PMS", none, some 7⟩]
      [⟨some 3⟩, ⟨none⟩]).2.1
    ⟨"PMS", (10 : ℚ) + 0, (5 : ℚ) + 7⟩ (List.mem_cons_self _ _)
